import Mathlib

/-!
Shallow embedding of the VoiceChat widget (the voice-chat client of the
banking-assistant frontend): transcript construction, the audio playback
queue, the capture pipeline, the outbound send path, the inbound dispatch,
and the hands-free VAD tick of the visualizer loop.

Conventions of the embedding:
* React ref/state cells become fields of explicit state records
  (PlayerState for the playback queue refs, WState for the widget);
  each handler becomes a pure state-transition function.
* Audio clips and buffered recorder chunks are identified by numeric ids;
  object URLs are tracked in ghost lists (createdUrls / revokedUrls).
* Times are naturals (milliseconds, as Date.now()); the per-sample energy
  average is a natural compared against the source threshold 25.
* Whether audio.play() rejects for a given clip is an oracle
  (fails : Nat -> Bool) passed to the queue-processing functions.
-/

namespace VoiceChat

/-- Sender of a transcript message, matching the three sender strings of the widget. -/
inductive Sender
  | user
  | agent
  | system
  deriving DecidableEq, Repr

/-- One transcript entry, as built by addMessage (the timestamp field is omitted:
no claim mentions it and it does not influence any branch). -/
structure Message where
  sender : Sender
  text : String
  deriving DecidableEq, Repr

/-- addMessage from the widget: if the last entry exists, has the same sender,
and that sender is not system, replace the last entry by one whose text is the
old text, a space, and the new text; otherwise append a fresh entry. -/
def addMessage (msgs : List Message) (sender : Sender) (text : String) : List Message :=
  match msgs.getLast? with
  | some lastMsg =>
    if lastMsg.sender = sender ∧ sender ≠ Sender.system then
      msgs.dropLast ++ [{ sender := sender, text := lastMsg.text ++ " " ++ text }]
    else
      msgs ++ [{ sender := sender, text := text }]
  | none => [{ sender := sender, text := text }]

/-- Atomic playback actions, recorded in a ghost event log: a clip starting to
play, a clip finishing naturally (its onended callback), and a clip whose
play() rejected (the catch branch of processQueue). -/
inductive Act
  | start (c : Nat)
  | finish (c : Nat)
  | fail (c : Nat)
  deriving DecidableEq, Repr

/-- State of the audio playback queue: audioQueueRef, isPlayingRef and
currentAudioRef from the widget, plus ghost fields: the object URLs created
and revoked, the start/finish/fail log, and the full enqueue history. -/
structure PlayerState where
  audioQueue : List Nat
  isPlaying : Bool
  currentAudio : Option Nat
  createdUrls : List Nat
  revokedUrls : List Nat
  log : List Act
  enqueued : List Nat
  deriving DecidableEq, Repr

def initPlayer : PlayerState :=
  { audioQueue := [], isPlaying := false, currentAudio := none,
    createdUrls := [], revokedUrls := [], log := [], enqueued := [] }

/-- processQueue from the widget, with explicit fuel bounding the recursion of
its error path (each recursive call consumes one queue element, so fuel equal
to the queue length is always sufficient; the wrapper below supplies it).
If already playing or the queue is empty it returns; otherwise it sets the
busy flag, shifts the head clip, creates its object URL, and begins playback.
When play() rejects (fails c), the catch branch clears only the busy flag
(it revokes no URL and leaves currentAudio stale, as the source does) and
recurses to try the next clip. -/
def processQueueFuel (fails : Nat → Bool) : Nat → PlayerState → PlayerState
  | 0, p => p
  | fuel + 1, p =>
    if p.isPlaying then p
    else
      match p.audioQueue with
      | [] => p
      | c :: rest =>
        let p1 : PlayerState :=
          { p with audioQueue := rest, isPlaying := true, currentAudio := some c,
                   createdUrls := p.createdUrls ++ [c], log := p.log ++ [Act.start c] }
        if fails c then
          processQueueFuel fails fuel
            { p1 with isPlaying := false, log := p1.log ++ [Act.fail c] }
        else p1

def processQueue (fails : Nat → Bool) (p : PlayerState) : PlayerState :=
  processQueueFuel fails p.audioQueue.length p

/-- The onended callback installed by processQueue: revoke the finished clip's
object URL, clear the busy flag and current handle, and process the next item.
It belongs to the currently playing clip, so it is modelled as a no-op when
nothing is playing. -/
def onEnded (fails : Nat → Bool) (p : PlayerState) : PlayerState :=
  match p.currentAudio with
  | some c =>
    if p.isPlaying then
      processQueue fails
        { p with revokedUrls := p.revokedUrls ++ [c], isPlaying := false,
                 currentAudio := none, log := p.log ++ [Act.finish c] }
    else p
  | none => p

/-- playAudioResponse from the widget: push the clip and trigger queue processing. -/
def playAudioResponse (fails : Nat → Bool) (p : PlayerState) (clip : Nat) : PlayerState :=
  processQueue fails
    { p with audioQueue := p.audioQueue ++ [clip], enqueued := p.enqueued ++ [clip] }

/-- stopAudioPlayback from the widget: clear the pending queue, pause and drop
the current audio element, clear the busy flag. Note: it revokes no object URL. -/
def stopAudioPlayback (p : PlayerState) : PlayerState :=
  { p with audioQueue := [], currentAudio := none, isPlaying := false }

/-- External playback-queue events: an inbound clip arriving, and the natural
completion callback of the currently playing clip. -/
inductive PEv
  | enq (c : Nat)
  | ended
  deriving DecidableEq, Repr

def pstep (fails : Nat → Bool) (p : PlayerState) : PEv → PlayerState
  | PEv.enq c => playAudioResponse fails p c
  | PEv.ended => onEnded fails p

def prun (fails : Nat → Bool) (p : PlayerState) (evs : List PEv) : PlayerState :=
  evs.foldl (pstep fails) p

/-- The clips enqueued by a trace, in arrival order. -/
def enqueuedOf (evs : List PEv) : List Nat :=
  evs.filterMap fun e => match e with | PEv.enq c => some c | PEv.ended => none

/-- The clips whose playback started, in the order they started. -/
def startsOf : List Act → List Nat
  | [] => []
  | Act.start c :: l => c :: startsOf l
  | Act.finish _ :: l => startsOf l
  | Act.fail _ :: l => startsOf l

/-- Checker for the playback log: threading the at-most-one open clip through
the log, it rejects a start while some clip is still open (an overlap) and a
finish or fail of a clip that is not the open one; it returns the clip left
open at the end, or none on an ill-formed log. -/
def runLog : List Act → Option Nat → Option (Option Nat)
  | [], cur => some cur
  | Act.start c :: l, none => runLog l (some c)
  | Act.start _ :: _, some _ => none
  | Act.finish c :: l, some cur => if c = cur then runLog l none else none
  | Act.finish _ :: _, none => none
  | Act.fail c :: l, some cur => if c = cur then runLog l none else none
  | Act.fail _ :: _, none => none

/-- Outbound frames handed to the socket. -/
inductive OutFrame
  | audioBlob (frames : List Nat)
  | textMsg (text : String)
  | interrupt
  deriving DecidableEq, Repr

/-- Widget-level state: the React state and refs of the component, plus ghost
counters. activeStreams counts device streams acquired and not yet released;
connectAttempts counts socket constructions; retries records the delays of the
scheduled handleSendMessage retry timers; restartPending records the delay of
a scheduled capture restart; stopCycles counts end-of-utterance cycles of the
hands-free silence branch. -/
structure WState where
  isHandsFree : Bool
  isRecording : Bool
  wsOpen : Bool
  silenceStart : Option Nat
  player : PlayerState
  chunks : List Nat
  sent : List OutFrame
  loopActive : Bool
  activeStreams : Nat
  connectAttempts : Nat
  restartPending : Option Nat
  retries : List Nat
  stopCycles : Nat
  messages : List Message
  inputText : String
  deriving DecidableEq, Repr

def baseState : WState :=
  { isHandsFree := false, isRecording := false, wsOpen := false, silenceStart := none,
    player := initPlayer, chunks := [], sent := [], loopActive := false,
    activeStreams := 0, connectAttempts := 0, restartPending := none, retries := [],
    stopCycles := 0, messages := [], inputText := "" }

/-- connectWebSocket from the widget: a no-op when the socket is already open
or opening, otherwise it constructs a new socket (construction does not make
the connection open; onopen is an external event). -/
def connectWebSocket (s : WState) : WState :=
  if s.wsOpen then s else { s with connectAttempts := s.connectAttempts + 1 }

/-- The mediaRecorder.onstop handler: if the socket is open and the chunk
buffer is non-empty, assemble the chunks into one blob, send it as a binary
frame, and clear the buffer; otherwise do nothing (the audio is dropped). -/
def onstopFlush (s : WState) : WState :=
  if s.wsOpen = true ∧ s.chunks ≠ [] then
    { s with sent := s.sent ++ [OutFrame.audioBlob s.chunks], chunks := [] }
  else s

/-- stopRecording from the widget: guarded by the recording flag (a no-op when
not recording), it stops the recorder (firing the onstop flush), stops the
stream's tracks (releasing one device stream), and cancels the visualizer
loop's pending animation frame. -/
def stopRecording (s : WState) : WState :=
  if s.isRecording then
    let s1 := onstopFlush s
    { s1 with isRecording := false, activeStreams := s1.activeStreams - 1,
              loopActive := false }
  else s

/-- startRecording from the widget (device-acquisition success path): ensure a
connection exists, acquire a fresh device stream, wire the analyser, start the
visualizer loop, create a recorder with a fresh chunk buffer, set the
recording flag, and append the system notice. Note: it has no guard on the
recording flag — invoked while already recording it acquires another stream. -/
def startRecording (s : WState) : WState :=
  let s1 := if s.wsOpen then s else connectWebSocket s
  { s1 with
    activeStreams := s1.activeStreams + 1,
    chunks := [],
    loopActive := true,
    isRecording := true,
    messages := addMessage s1.messages Sender.system
      (if s1.isHandsFree then "Hands-free mode active. Listening..." else "Listening...") }

/-- One tick of the visualizer draw loop's VAD section, at time tick.1 with
average energy tick.2. A tick only happens while the loop is scheduled. In
hands-free mode while recording: energy above the threshold 25 resets the
silence timer, and if the playback queue is non-empty or a clip is playing
this is a barge-in (stopAudioPlayback and one interrupt control frame);
energy at or below the threshold arms the silence timer, and once more than
600 ms have passed since it was armed the utterance ends: stopRecording
(which flushes), silence timer reset, and a capture restart scheduled after
100 ms. -/
def vadTick (s : WState) (tick : Nat × Nat) : WState :=
  if s.loopActive = false then s
  else if s.isHandsFree = true ∧ s.isRecording = true then
    if 25 < tick.2 then
      let s1 := { s with silenceStart := none }
      if s1.player.audioQueue ≠ [] ∨ s1.player.isPlaying = true then
        { s1 with player := stopAudioPlayback s1.player,
                  sent := s1.sent ++ [OutFrame.interrupt] }
      else s1
    else
      match s.silenceStart with
      | none => { s with silenceStart := some tick.1 }
      | some t0 =>
        if 600 < tick.1 - t0 then
          let s1 := stopRecording s
          { s1 with silenceStart := none, restartPending := some 100,
                    stopCycles := s1.stopCycles + 1 }
        else s
  else s

def runTicks (s : WState) (ts : List (Nat × Nat)) : WState :=
  ts.foldl vadTick s

def countInterrupts (l : List OutFrame) : Nat :=
  l.count OutFrame.interrupt

/-- The blank test of the source's early return: inputText.trim() is falsy
exactly when every character of the input is whitespace (in particular when
the input is empty). -/
def isBlank (t : String) : Bool :=
  t.data.all Char.isWhitespace

/-- handleSendMessage from the widget: a blank (empty or whitespace-only)
input is an immediate return; otherwise ensure a connection exists, and if the
socket is still not open schedule a retry of handleSendMessage after 500 ms;
once open, send the text as a JSON frame, append the user transcript entry,
and clear the input field. -/
def handleSendMessage (s : WState) : WState :=
  if isBlank s.inputText then s
  else
    let s1 := if s.wsOpen then s else connectWebSocket s
    if s1.wsOpen = false then { s1 with retries := s1.retries ++ [500] }
    else
      { s1 with sent := s1.sent ++ [OutFrame.textMsg s1.inputText],
                messages := addMessage s1.messages Sender.user s1.inputText,
                inputText := "" }

/-- A parsed inbound textual frame: either malformed JSON (the raw payload) or
a JSON object with optional audio, text and type fields. -/
inductive Payload
  | malformed (raw : String)
  | json (audio : Option String) (text : Option String) (ftype : Option String)
  deriving DecidableEq, Repr

/-- JavaScript truthiness of an optional string field. -/
def truthy : Option String → Bool
  | none => false
  | some t => !t.isEmpty

/-- Effects produced by the inbound dispatch. -/
inductive DispatchAct
  | playAudio
  | addMsg (sender : Sender) (text : Option String)
  deriving DecidableEq, Repr

/-- The ws.onmessage dispatch for textual frames: malformed JSON degrades to
one agent entry holding the raw payload; otherwise a truthy audio field
enqueues a decoded clip, and the text/type classification mirrors the source's
if/else-if chain (truthy text with type other than transcript gives an agent
entry, type transcript a user entry, type text_response an agent entry). -/
def onTextMessage : Payload → List DispatchAct
  | Payload.malformed raw => [DispatchAct.addMsg Sender.agent (some raw)]
  | Payload.json audio text ftype =>
    (if truthy audio then [DispatchAct.playAudio] else []) ++
    (if truthy text = true ∧ ftype ≠ some "transcript" then
       [DispatchAct.addMsg Sender.agent text]
     else if ftype = some "transcript" then
       [DispatchAct.addMsg Sender.user text]
     else if ftype = some "text_response" then
       [DispatchAct.addMsg Sender.agent text]
     else [])

/-- The transcript-append actions of a dispatch result, in order. -/
def msgActs (acts : List DispatchAct) : List (Sender × Option String) :=
  acts.filterMap fun a =>
    match a with
    | DispatchAct.addMsg s t => some (s, t)
    | DispatchAct.playAudio => none

/-! ## Helper lemmas -/

theorem stopRecording_noop (s : WState) (h : s.isRecording = false) :
    stopRecording s = s := by
  simp [stopRecording, h]

theorem stopRecording_fields (s : WState) (hr : s.isRecording = true) :
    (stopRecording s).isRecording = false ∧
    (stopRecording s).loopActive = false ∧
    (stopRecording s).stopCycles = s.stopCycles ∧
    (stopRecording s).retries = s.retries ∧
    (stopRecording s).restartPending = s.restartPending ∧
    (stopRecording s).silenceStart = s.silenceStart ∧
    (stopRecording s).sent =
      s.sent ++ (if s.wsOpen = true ∧ s.chunks ≠ [] then [OutFrame.audioBlob s.chunks] else []) ∧
    (stopRecording s).chunks = (if s.wsOpen = true ∧ s.chunks ≠ [] then [] else s.chunks) := by
  simp only [stopRecording, hr, if_true, onstopFlush]
  split <;> simp

/-! ## C10: blank input send is a no-op -/

/-- C10: invoking the text-send operation on an input that is empty or consists
only of whitespace is a complete no-op: the whole widget state is unchanged, so
no frame is sent, no connection attempt is made, no retry is scheduled, and the
transcript and input field are untouched. -/
theorem blank_input_send_noop (s : WState) (h : isBlank s.inputText = true) :
    handleSendMessage s = s := by
  simp [handleSendMessage, h]

/-- C10 witness: sending with a whitespace-only input leaves the state unchanged. -/
theorem blank_input_send_noop_witness :
    handleSendMessage { baseState with inputText := "  " } =
      { baseState with inputText := "  " } :=
  blank_input_send_noop { baseState with inputText := "  " } (by decide)

/-! ## C7: transcript merge discipline -/

/-- C7: the transcript is append-only except for the same-sender merge. On a
non-empty transcript, appending with the same non-system sender as the last
entry replaces only that last entry by one whose text is the old text, a
single space, and the new text; any other combination appends a fresh entry.
Entries other than the last are never modified (the take conjunct returns the
untouched earlier entries), and a system entry sitting between two same-sender
messages prevents merging. -/
theorem transcript_merge_rule (msgs : List Message) (last : Message) (sndr : Sender)
    (t u : String) :
    (addMessage (msgs ++ [last]) sndr t).take msgs.length = msgs ∧
    addMessage [] sndr t = [{ sender := sndr, text := t }] ∧
    addMessage (msgs ++ [last]) sndr t =
      (if last.sender = sndr ∧ sndr ≠ Sender.system then
        msgs ++ [{ sender := sndr, text := last.text ++ " " ++ t }]
      else
        msgs ++ [last, { sender := sndr, text := t }]) ∧
    addMessage (msgs ++ [{ sender := Sender.system, text := u }]) sndr t =
      msgs ++ [{ sender := Sender.system, text := u }, { sender := sndr, text := t }] := by
  have key : ∀ (l : List Message) (m : Message),
      addMessage (l ++ [m]) sndr t =
        if m.sender = sndr ∧ sndr ≠ Sender.system then
          l ++ [{ sender := sndr, text := m.text ++ " " ++ t }]
        else l ++ [m, { sender := sndr, text := t }] := by
    intro l m
    simp only [addMessage, List.getLast?_concat, List.dropLast_concat]
    split
    · rfl
    · simp
  refine ⟨?_, rfl, key msgs last, ?_⟩
  · rw [key msgs last]
    split
    · exact List.take_left msgs _
    · exact List.take_left msgs _
  · rw [key msgs { sender := Sender.system, text := u }]
    rw [if_neg]
    rintro ⟨h1, h2⟩
    exact h2 h1.symm

/-! ## C8: stop flush conditions -/

/-- C8: stopping capture flushes the buffered chunks into one blob and sends
it as a binary frame exactly when the socket is open and the buffer is
non-empty (the if on the right-hand side); when the socket is not open at
flush time nothing is sent and no retry is scheduled — the audio is dropped —
and calling stop while not recording is a no-op on the whole state. -/
theorem stop_flush_conditions (s s' : WState)
    (hrec : s.isRecording = true) (hnot : s'.isRecording = false) :
    stopRecording s' = s' ∧
    (stopRecording s).sent =
      s.sent ++ (if s.wsOpen = true ∧ s.chunks ≠ [] then [OutFrame.audioBlob s.chunks] else []) ∧
    (stopRecording s).chunks = (if s.wsOpen = true ∧ s.chunks ≠ [] then [] else s.chunks) ∧
    (stopRecording s).retries = s.retries ∧
    (stopRecording s).isRecording = false := by
  obtain ⟨f1, _, f3, f4, f5, f6, f7, f8⟩ := stopRecording_fields s hrec
  exact ⟨stopRecording_noop s' hnot, f7, f8, f4, f1⟩

def exRecState : WState :=
  { baseState with isRecording := true, chunks := [1, 2] }

/-- C8 witness: a concrete stop while recording with a closed socket drops the
audio, and a concrete stop while not recording is a no-op. -/
theorem stop_flush_conditions_witness :
    stopRecording baseState = baseState ∧
    (stopRecording exRecState).sent =
      exRecState.sent ++
        (if exRecState.wsOpen = true ∧ exRecState.chunks ≠ [] then
          [OutFrame.audioBlob exRecState.chunks] else []) ∧
    (stopRecording exRecState).chunks =
      (if exRecState.wsOpen = true ∧ exRecState.chunks ≠ [] then [] else exRecState.chunks) ∧
    (stopRecording exRecState).retries = exRecState.retries ∧
    (stopRecording exRecState).isRecording = false :=
  stop_flush_conditions exRecState baseState rfl rfl

/-! ## C4: double start acquires a second device stream (code bug) -/

/-- C4 (code bug): startRecording has no guard on the recording flag, so
invoking capture start while a session is already active acquires a second
device stream instead of being a no-op: after two consecutive starts two
streams are live, and the following stop releases only the current one — the
orphaned stream stays live forever since a further stop is a no-op. The claim
(and the spec's idempotence contract) says the second start must not create a
second device stream. -/
theorem double_start_acquires_second_stream :
    (startRecording baseState).isRecording = true ∧
    (startRecording baseState).activeStreams = 1 ∧
    (startRecording (startRecording baseState)).activeStreams = 2 ∧
    (stopRecording (startRecording (startRecording baseState))).activeStreams = 1 ∧
    (stopRecording (stopRecording (startRecording (startRecording baseState)))).activeStreams
      = 1 := by
  decide

/-! ## C9: interrupted or failing clips leak their object URL (code bug) -/

/-- C9 (code bug): the object URL of an interrupted or failing clip is never
released. Enqueue clip 7 and let it start playing: its URL is created; a
barge-in stopAudioPlayback then pauses and drops the element without revoking
the URL, and with currentAudio cleared no later event can ever revoke it.
Likewise a clip 9 whose play() rejects has its URL created while the catch
branch clears only the busy flag and revokes nothing. Natural completion does
revoke (last conjunct), so only the finish case of the claim holds. -/
theorem interrupted_clip_url_leak :
    (stopAudioPlayback (playAudioResponse (fun _ => false) initPlayer 7)).createdUrls = [7] ∧
    (stopAudioPlayback (playAudioResponse (fun _ => false) initPlayer 7)).revokedUrls = [] ∧
    (stopAudioPlayback (playAudioResponse (fun _ => false) initPlayer 7)).currentAudio = none ∧
    (playAudioResponse (fun _ => true) initPlayer 9).createdUrls = [9] ∧
    (playAudioResponse (fun _ => true) initPlayer 9).revokedUrls = [] ∧
    (playAudioResponse (fun _ => true) initPlayer 9).isPlaying = false ∧
    (onEnded (fun _ => false) (playAudioResponse (fun _ => false) initPlayer 7)).revokedUrls
      = [7] := by
  decide

/-! ## C5: inbound dispatch classification -/

/-- C5 counterexample: an inbound frame that parses as JSON with a text field
holding the empty string and no type field appends no transcript message at
all — the source's first branch requires truthy text, and no later branch of
the chain matches — refuting the claim's clause that every parsed frame with
a text field and no type gains one agent message. -/
theorem empty_text_frame_no_message :
    onTextMessage (Payload.json none (some "") none) = [] := rfl

/-- C5 amended: classification of inbound textual frames, with the no-type
clause restricted to a non-empty text field: type transcript gives exactly one
user entry carrying the frame's text, type text_response exactly one agent
entry, a non-empty text field with no type exactly one agent entry, and
malformed JSON exactly one agent entry holding the raw payload (the dispatch
function is total, so it never throws to the caller). -/
theorem dispatch_classification (audio text : Option String) (raw t : String)
    (ht : t ≠ "") :
    msgActs (onTextMessage (Payload.json audio text (some "transcript"))) =
      [(Sender.user, text)] ∧
    msgActs (onTextMessage (Payload.json audio text (some "text_response"))) =
      [(Sender.agent, text)] ∧
    msgActs (onTextMessage (Payload.json audio (some t) none)) =
      [(Sender.agent, some t)] ∧
    msgActs (onTextMessage (Payload.malformed raw)) = [(Sender.agent, some raw)] := by
  have haud : ∀ L, msgActs ((if truthy audio then [DispatchAct.playAudio] else []) ++ L) =
      msgActs L := by
    intro L
    split <;> simp [msgActs]
  have htt : truthy (some t) = true := by
    cases h : t.isEmpty with
    | false => simp [truthy, h]
    | true => exact absurd ((String.isEmpty_iff t).mp h) ht
  refine ⟨?_, ?_, ?_, rfl⟩
  · rw [onTextMessage, haud]
    simp +decide [msgActs]
  · rw [onTextMessage, haud]
    cases htx : truthy text <;> simp +decide [htx, msgActs]
  · rw [onTextMessage, haud]
    simp +decide [htt, msgActs]

/-- C5 witness: the amended classification at the spec's own scenario frames. -/
theorem dispatch_classification_witness :
    msgActs (onTextMessage
        (Payload.json none (some "what is my balance") (some "transcript"))) =
      [(Sender.user, some "what is my balance")] ∧
    msgActs (onTextMessage
        (Payload.json none (some "what is my balance") (some "text_response"))) =
      [(Sender.agent, some "what is my balance")] ∧
    msgActs (onTextMessage (Payload.json none (some "hello") none)) =
      [(Sender.agent, some "hello")] ∧
    msgActs (onTextMessage (Payload.malformed "oops")) = [(Sender.agent, some "oops")] :=
  dispatch_classification none (some "what is my balance") "oops" "hello" (by decide)

/-! ## C6: send-while-closed retry -/

def offlineSendState : WState :=
  { baseState with inputText := "hi" }

/-- C6 counterexample: the claim says a text message sent while the connection
is not open appears exactly once in the transcript as a user message
immediately upon the send request (optimistic local echo), independent of
delivery outcome. On a concrete closed-connection state the code only
schedules the 500 ms retry: the transcript stays empty — no immediate echo —
and nothing is sent. -/
theorem offline_send_no_immediate_echo :
    (handleSendMessage offlineSendState).messages = [] ∧
    (handleSendMessage offlineSendState).sent = [] ∧
    (handleSendMessage offlineSendState).retries = [500] := by
  decide

/-- C6 amended: a non-blank text send while the socket is not open changes no
transcript entry, sends nothing, keeps the input field, and schedules one
retry of the whole send after the fixed 500 ms delay; a send (hence any retry)
that runs while the socket is open delivers the frame and appends the user
transcript entry exactly once, at delivery time, and clears the input — so a
further pending retry is a no-op and only the most recent pending text is ever
delivered. -/
theorem send_retry_delivery (s s' : WState)
    (hb : isBlank s.inputText = false) (hclosed : s.wsOpen = false)
    (hb' : isBlank s'.inputText = false) (hopen : s'.wsOpen = true) :
    (handleSendMessage s).retries = s.retries ++ [500] ∧
    (handleSendMessage s).messages = s.messages ∧
    (handleSendMessage s).sent = s.sent ∧
    (handleSendMessage s).inputText = s.inputText ∧
    (handleSendMessage s').sent = s'.sent ++ [OutFrame.textMsg s'.inputText] ∧
    (handleSendMessage s').messages = addMessage s'.messages Sender.user s'.inputText ∧
    (handleSendMessage s').inputText = "" ∧
    handleSendMessage (handleSendMessage s') = handleSendMessage s' := by
  have hdeliv : handleSendMessage s' =
      { s' with sent := s'.sent ++ [OutFrame.textMsg s'.inputText],
                messages := addMessage s'.messages Sender.user s'.inputText,
                inputText := "" } := by
    simp [handleSendMessage, hb', hopen]
  have hblankEmpty : isBlank "" = true := by decide
  refine ⟨?_, ?_, ?_, ?_, ?_, ?_, ?_, ?_⟩
  · simp [handleSendMessage, connectWebSocket, hb, hclosed]
  · simp [handleSendMessage, connectWebSocket, hb, hclosed]
  · simp [handleSendMessage, connectWebSocket, hb, hclosed]
  · simp [handleSendMessage, connectWebSocket, hb, hclosed]
  · rw [hdeliv]
  · rw [hdeliv]
  · rw [hdeliv]
  · rw [hdeliv]
    simp [handleSendMessage, hblankEmpty]

def openSendState : WState :=
  { baseState with inputText := "yo", wsOpen := true }

/-- C6 amended witness: the amended behavior at a concrete closed-socket state
and a concrete open-socket state. -/
theorem send_retry_delivery_witness :
    (handleSendMessage offlineSendState).retries = offlineSendState.retries ++ [500] ∧
    (handleSendMessage offlineSendState).messages = offlineSendState.messages ∧
    (handleSendMessage offlineSendState).sent = offlineSendState.sent ∧
    (handleSendMessage offlineSendState).inputText = offlineSendState.inputText ∧
    (handleSendMessage openSendState).sent =
      openSendState.sent ++ [OutFrame.textMsg openSendState.inputText] ∧
    (handleSendMessage openSendState).messages =
      addMessage openSendState.messages Sender.user openSendState.inputText ∧
    (handleSendMessage openSendState).inputText = "" ∧
    handleSendMessage (handleSendMessage openSendState) = handleSendMessage openSendState :=
  send_retry_delivery offlineSendState openSendState (by decide) rfl (by decide) rfl

/-! ## VAD tick lemmas -/

theorem vadTick_inactive (s : WState) (u : Nat × Nat) (h : s.loopActive = false) :
    vadTick s u = s := by
  simp [vadTick, h]

theorem runTicks_inactive (s : WState) (ts : List (Nat × Nat)) (h : s.loopActive = false) :
    runTicks s ts = s := by
  induction ts with
  | nil => rfl
  | cons u ts ih =>
    show runTicks (vadTick s u) ts = s
    rw [vadTick_inactive s u h]
    exact ih

theorem vadTick_loud_busy (s : WState) (u : Nat × Nat)
    (hl : s.loopActive = true) (hh : s.isHandsFree = true) (hr : s.isRecording = true)
    (hbusy : s.player.audioQueue ≠ [] ∨ s.player.isPlaying = true)
    (hloud : 25 < u.2) :
    vadTick s u = { s with
      silenceStart := none
      player := stopAudioPlayback s.player
      sent := s.sent ++ [OutFrame.interrupt] } := by
  simp only [vadTick, hl, hh, hr, and_self, if_true, hloud]
  rw [if_pos hbusy]
  simp

theorem vadTick_loud_calm (s : WState) (u : Nat × Nat)
    (hl : s.loopActive = true) (hh : s.isHandsFree = true) (hr : s.isRecording = true)
    (hq : s.player.audioQueue = []) (hp : s.player.isPlaying = false)
    (hsil : s.silenceStart = none) (hloud : 25 < u.2) :
    vadTick s u = s := by
  obtain ⟨f1, f2, f3, f4, f5, f6, f7, f8, f9, f10, f11, f12, f13, f14, f15⟩ := s
  simp only at hl hh hr hq hp hsil
  subst hl hh hr hsil
  simp [vadTick, hloud, hq, hp]

theorem runTicks_loud_calm (ts : List (Nat × Nat)) (s : WState)
    (hl : s.loopActive = true) (hh : s.isHandsFree = true) (hr : s.isRecording = true)
    (hq : s.player.audioQueue = []) (hp : s.player.isPlaying = false)
    (hsil : s.silenceStart = none) (hloud : ∀ u ∈ ts, 25 < u.2) :
    runTicks s ts = s := by
  induction ts with
  | nil => rfl
  | cons u ts ih =>
    show runTicks (vadTick s u) ts = s
    rw [vadTick_loud_calm s u hl hh hr hq hp hsil (hloud u (List.mem_cons_self u ts))]
    exact ih fun v hv => hloud v (List.mem_cons_of_mem u hv)

theorem vadTick_arm (s : WState) (u : Nat × Nat)
    (hl : s.loopActive = true) (hh : s.isHandsFree = true) (hr : s.isRecording = true)
    (hsil : s.silenceStart = none) (hquiet : u.2 ≤ 25) :
    vadTick s u = { s with silenceStart := some u.1 } := by
  simp [vadTick, hl, hh, hr, Nat.not_lt.mpr hquiet, hsil]

theorem vadTick_wait (s : WState) (u : Nat × Nat) (t0 : Nat)
    (hl : s.loopActive = true) (hh : s.isHandsFree = true) (hr : s.isRecording = true)
    (hsil : s.silenceStart = some t0) (hquiet : u.2 ≤ 25)
    (hgap : ¬ 600 < u.1 - t0) :
    vadTick s u = s := by
  simp [vadTick, hl, hh, hr, Nat.not_lt.mpr hquiet, hsil, hgap]

theorem vadTick_cycle (s : WState) (u : Nat × Nat) (t0 : Nat)
    (hl : s.loopActive = true) (hh : s.isHandsFree = true) (hr : s.isRecording = true)
    (hsil : s.silenceStart = some t0) (hquiet : u.2 ≤ 25)
    (hgap : 600 < u.1 - t0) :
    vadTick s u = { stopRecording s with
      silenceStart := none
      restartPending := some 100
      stopCycles := (stopRecording s).stopCycles + 1 } := by
  simp [vadTick, hl, hh, hr, Nat.not_lt.mpr hquiet, hsil, hgap]

/-! ## C1: barge-in fires exactly once per onset -/

/-- C1: in hands-free mode with an active capture session and a running
sampling loop, for a run of consecutive samples whose energy stays above the
threshold that begins while the playback queue is non-empty or a clip is
playing, the controller performs the barge-in exactly once at the onset of
the run: exactly one interrupt control frame is added over the whole run
(never one per sample), and the playback queue is left stopped and empty —
so the barge-in cannot re-fire until the queue becomes non-empty again. -/
theorem barge_in_interrupt_once (s0 : WState) (u : Nat × Nat) (rest : List (Nat × Nat))
    (hl : s0.loopActive = true) (hh : s0.isHandsFree = true) (hr : s0.isRecording = true)
    (hbusy : s0.player.audioQueue ≠ [] ∨ s0.player.isPlaying = true)
    (hloud : 25 < u.2) (hrest : ∀ v ∈ rest, 25 < v.2) :
    countInterrupts (runTicks s0 (u :: rest)).sent = countInterrupts s0.sent + 1 ∧
    (runTicks s0 (u :: rest)).player.audioQueue = [] ∧
    (runTicks s0 (u :: rest)).player.isPlaying = false := by
  have h1 : runTicks s0 (u :: rest) =
      runTicks { s0 with
        silenceStart := none
        player := stopAudioPlayback s0.player
        sent := s0.sent ++ [OutFrame.interrupt] } rest := by
    show runTicks (vadTick s0 u) rest = _
    rw [vadTick_loud_busy s0 u hl hh hr hbusy hloud]
  rw [h1, runTicks_loud_calm rest
    { s0 with
      silenceStart := none
      player := stopAudioPlayback s0.player
      sent := s0.sent ++ [OutFrame.interrupt] } hl hh hr rfl rfl rfl hrest]
  refine ⟨?_, rfl, rfl⟩
  simp [countInterrupts, List.count_append]

def bargeState : WState :=
  { baseState with isHandsFree := true, isRecording := true, loopActive := true,
                   player := { initPlayer with audioQueue := [3], enqueued := [3] } }

/-- C1 witness: a three-sample loud run over a non-empty playback queue sends
exactly one interrupt and leaves the queue stopped and empty. -/
theorem barge_in_interrupt_once_witness :
    countInterrupts (runTicks bargeState [(0, 30), (16, 31), (32, 40)]).sent =
      countInterrupts bargeState.sent + 1 ∧
    (runTicks bargeState [(0, 30), (16, 31), (32, 40)]).player.audioQueue = [] ∧
    (runTicks bargeState [(0, 30), (16, 31), (32, 40)]).player.isPlaying = false :=
  barge_in_interrupt_once bargeState (0, 30) [(16, 31), (32, 40)]
    rfl rfl rfl (by decide) (by decide) (by decide)

/-! ## C2: one end-of-utterance cycle per sustained silence -/

theorem runTicks_quiet_armed (t0 : Nat) (ts : List (Nat × Nat)) (s : WState)
    (hl : s.loopActive = true) (hh : s.isHandsFree = true) (hr : s.isRecording = true)
    (hsil : s.silenceStart = some t0) (hq : ∀ u ∈ ts, u.2 ≤ 25) :
    (runTicks s ts = s ∧ ∀ u ∈ ts, ¬ 600 < u.1 - t0) ∨
    ((∃ u ∈ ts, 600 < u.1 - t0) ∧
      runTicks s ts =
        { stopRecording s with
          silenceStart := none
          restartPending := some 100
          stopCycles := (stopRecording s).stopCycles + 1 }) := by
  induction ts with
  | nil => exact Or.inl ⟨rfl, by simp⟩
  | cons u ts ih =>
    by_cases hgap : 600 < u.1 - t0
    · right
      refine ⟨⟨u, List.mem_cons_self u ts, hgap⟩, ?_⟩
      show runTicks (vadTick s u) ts = _
      rw [vadTick_cycle s u t0 hl hh hr hsil (hq u (List.mem_cons_self u ts)) hgap]
      refine runTicks_inactive _ ts ?_
      show (stopRecording s).loopActive = false
      exact (stopRecording_fields s hr).2.1
    · have hstep : runTicks s (u :: ts) = runTicks s ts := by
        show runTicks (vadTick s u) ts = _
        rw [vadTick_wait s u t0 hl hh hr hsil (hq u (List.mem_cons_self u ts)) hgap]
      rw [hstep]
      rcases ih (fun v hv => hq v (List.mem_cons_of_mem u hv)) with ⟨heq, hall⟩ | ⟨hex, heq⟩
      · left
        refine ⟨heq, ?_⟩
        intro v hv
        rcases List.mem_cons.mp hv with rfl | hv
        · exact hgap
        · exact hall v hv
      · right
        obtain ⟨v, hv, hvgap⟩ := hex
        exact ⟨⟨v, List.mem_cons_of_mem u hv, hvgap⟩, heq⟩

/-- C2: in hands-free mode with an active capture session and a running
sampling loop, immediately after speech (silence timer unset), a sequence of
samples whose energy stays at or below the threshold performs at most one
end-of-utterance cycle even when sampled every frame — and exactly one as
soon as some sample arrives more than 600 ms after the first silent sample:
one stop of capture (whose flush sends the buffered audio exactly when the
socket is open and the buffer non-empty), one reset of the silence timer to
none, and one capture restart scheduled after the fixed 100 ms delay. -/
theorem silence_end_of_utterance_once (s0 : WState) (t0 e0 : Nat)
    (rest : List (Nat × Nat))
    (hl : s0.loopActive = true) (hh : s0.isHandsFree = true) (hr : s0.isRecording = true)
    (hsil : s0.silenceStart = none)
    (hq0 : e0 ≤ 25) (hq : ∀ u ∈ rest, u.2 ≤ 25) :
    (runTicks s0 ((t0, e0) :: rest)).stopCycles ≤ s0.stopCycles + 1 ∧
    ((∃ u ∈ rest, 600 < u.1 - t0) →
      (runTicks s0 ((t0, e0) :: rest)).stopCycles = s0.stopCycles + 1 ∧
      (runTicks s0 ((t0, e0) :: rest)).isRecording = false ∧
      (runTicks s0 ((t0, e0) :: rest)).silenceStart = none ∧
      (runTicks s0 ((t0, e0) :: rest)).restartPending = some 100 ∧
      (runTicks s0 ((t0, e0) :: rest)).sent =
        s0.sent ++
          (if s0.wsOpen = true ∧ s0.chunks ≠ [] then [OutFrame.audioBlob s0.chunks]
           else [])) := by
  have h1 : runTicks s0 ((t0, e0) :: rest) =
      runTicks { s0 with silenceStart := some t0 } rest := by
    show runTicks (vadTick s0 (t0, e0)) rest = _
    rw [vadTick_arm s0 (t0, e0) hl hh hr hsil hq0]
  have hrec1 : ({ s0 with silenceStart := some t0 } : WState).isRecording = true := hr
  obtain ⟨g1, g2, g3, g4, g5, g6, g7, g8⟩ :=
    stopRecording_fields { s0 with silenceStart := some t0 } hrec1
  rcases runTicks_quiet_armed t0 rest { s0 with silenceStart := some t0 }
      hl hh hr rfl hq with ⟨heq, hall⟩ | ⟨hex, heq⟩
  · rw [h1, heq]
    constructor
    · exact Nat.le_succ_of_le (Nat.le_refl s0.stopCycles)
    · rintro ⟨v, hv, hvgap⟩
      exact absurd hvgap (hall v hv)
  · rw [h1, heq]
    constructor
    · show (stopRecording { s0 with silenceStart := some t0 }).stopCycles + 1 ≤
        s0.stopCycles + 1
      rw [g3]
    · intro _
      exact ⟨by rw [g3], g1, rfl, rfl, g7⟩

def silenceState : WState :=
  { baseState with isHandsFree := true, isRecording := true, loopActive := true,
                   wsOpen := true, chunks := [5] }

/-- C2 witness: a concrete silent sample run whose third sample arrives 700 ms
after the first performs exactly one stop-flush-restart cycle. -/
theorem silence_end_of_utterance_once_witness :
    (runTicks silenceState [(0, 0), (300, 10), (700, 0)]).stopCycles ≤
      silenceState.stopCycles + 1 ∧
    (runTicks silenceState [(0, 0), (300, 10), (700, 0)]).stopCycles =
      silenceState.stopCycles + 1 ∧
    (runTicks silenceState [(0, 0), (300, 10), (700, 0)]).isRecording = false ∧
    (runTicks silenceState [(0, 0), (300, 10), (700, 0)]).silenceStart = none ∧
    (runTicks silenceState [(0, 0), (300, 10), (700, 0)]).restartPending = some 100 ∧
    (runTicks silenceState [(0, 0), (300, 10), (700, 0)]).sent =
      silenceState.sent ++
        (if silenceState.wsOpen = true ∧ silenceState.chunks ≠ [] then
          [OutFrame.audioBlob silenceState.chunks] else []) := by
  have h := silence_end_of_utterance_once silenceState 0 0 [(300, 10), (700, 0)]
    rfl rfl rfl rfl (by decide) (by decide)
  exact ⟨h.1, h.2 ⟨(700, 0), by decide, by decide⟩⟩

/-! ## C3: FIFO order and no overlap of playback -/

theorem runLog_append (l1 l2 : List Act) (cur : Option Nat) :
    runLog (l1 ++ l2) cur = (runLog l1 cur).bind fun c => runLog l2 c := by
  induction l1 generalizing cur with
  | nil => simp [runLog]
  | cons a l ih =>
    cases a with
    | start c =>
      cases cur with
      | none => simp [runLog, ih]
      | some d => simp [runLog]
    | finish c =>
      cases cur with
      | none => simp [runLog]
      | some d =>
        by_cases h : c = d <;> simp [runLog, h, ih]
    | fail c =>
      cases cur with
      | none => simp [runLog]
      | some d =>
        by_cases h : c = d <;> simp [runLog, h, ih]

theorem startsOf_append (l1 l2 : List Act) :
    startsOf (l1 ++ l2) = startsOf l1 ++ startsOf l2 := by
  induction l1 with
  | nil => rfl
  | cons a l ih => cases a <;> simp [startsOf, ih]

/-- Invariant tying a playback-queue state to its ghost fields: the log is
well-formed and its open clip agrees with the busy flag and current handle,
the busy flag implies a current handle, and the started clips followed by the
still-pending clips are exactly the enqueued clips in order. -/
def PInv (p : PlayerState) : Prop :=
  runLog p.log none = some (if p.isPlaying then p.currentAudio else none) ∧
  (p.isPlaying = true → p.currentAudio ≠ none) ∧
  startsOf p.log ++ p.audioQueue = p.enqueued

theorem PInv_processQueueFuel (fails : Nat → Bool) (fuel : Nat) (p : PlayerState)
    (h : PInv p) : PInv (processQueueFuel fails fuel p) := by
  induction fuel generalizing p with
  | zero => exact h
  | succ fuel ih =>
    rw [processQueueFuel]
    by_cases hp : p.isPlaying = true
    · simpa [hp] using h
    · obtain ⟨h1, h2, h3⟩ := h
      have hpf : p.isPlaying = false := by
        cases hps : p.isPlaying
        · rfl
        · exact absurd hps hp
      rw [hpf] at h1
      simp only [if_false, Bool.false_eq_true] at h1
      simp only [hpf, Bool.false_eq_true, if_false]
      cases hq : p.audioQueue with
      | nil => exact ⟨by simpa [hpf] using h1, h2, h3⟩
      | cons c rest =>
        rw [hq] at h3
        by_cases hf : fails c = true
        · simp only [hf, if_true]
          apply ih
          refine ⟨?_, ?_, ?_⟩
          · show runLog ((p.log ++ [Act.start c]) ++ [Act.fail c]) none = _
            rw [runLog_append, runLog_append, h1]
            simp [runLog]
          · intro hcontra
            simp at hcontra
          · show startsOf ((p.log ++ [Act.start c]) ++ [Act.fail c]) ++ rest = p.enqueued
            rw [startsOf_append, startsOf_append]
            simp only [startsOf]
            rw [← h3]
            simp
        · simp only [hf, Bool.false_eq_true, if_false]
          refine ⟨?_, ?_, ?_⟩
          · show runLog (p.log ++ [Act.start c]) none = some (if true then some c else none)
            rw [runLog_append, h1]
            simp [runLog]
          · intro _
            simp
          · show startsOf (p.log ++ [Act.start c]) ++ rest = p.enqueued
            rw [startsOf_append]
            simp only [startsOf]
            rw [← h3]
            simp

theorem PInv_pstep (fails : Nat → Bool) (p : PlayerState) (e : PEv)
    (h : PInv p) : PInv (pstep fails p e) := by
  obtain ⟨h1, h2, h3⟩ := h
  cases e with
  | enq c =>
    show PInv (playAudioResponse fails p c)
    rw [playAudioResponse, processQueue]
    apply PInv_processQueueFuel
    refine ⟨h1, h2, ?_⟩
    show startsOf p.log ++ (p.audioQueue ++ [c]) = p.enqueued ++ [c]
    rw [← List.append_assoc, h3]
  | ended =>
    show PInv (onEnded fails p)
    rw [onEnded]
    cases hc : p.currentAudio with
    | none => exact ⟨h1, h2, h3⟩
    | some c =>
      by_cases hp : p.isPlaying = true
      · simp only [hp, if_true]
        rw [processQueue]
        apply PInv_processQueueFuel
        rw [hp, hc] at h1
        simp only [if_true] at h1
        refine ⟨?_, ?_, ?_⟩
        · show runLog (p.log ++ [Act.finish c]) none = _
          rw [runLog_append, h1]
          simp [runLog]
        · intro hcontra
          simp at hcontra
        · show startsOf (p.log ++ [Act.finish c]) ++ p.audioQueue = p.enqueued
          rw [startsOf_append]
          simp only [startsOf]
          rw [← h3]
          simp
      · simp only [hp, Bool.false_eq_true, if_false]
        exact ⟨h1, h2, h3⟩

theorem PInv_init : PInv initPlayer :=
  ⟨rfl, by simp [initPlayer], rfl⟩

theorem PInv_prun (fails : Nat → Bool) (evs : List PEv) (p : PlayerState)
    (h : PInv p) : PInv (prun fails p evs) := by
  induction evs generalizing p with
  | nil => exact h
  | cons e evs ih => exact ih (pstep fails p e) (PInv_pstep fails p e h)

theorem enqueued_processQueueFuel (fails : Nat → Bool) (fuel : Nat) (p : PlayerState) :
    (processQueueFuel fails fuel p).enqueued = p.enqueued := by
  induction fuel generalizing p with
  | zero => rfl
  | succ fuel ih =>
    rw [processQueueFuel]
    by_cases hp : p.isPlaying = true
    · simp [hp]
    · have hpf : p.isPlaying = false := by
        cases hps : p.isPlaying
        · rfl
        · exact absurd hps hp
      simp only [hpf, Bool.false_eq_true, if_false]
      cases hq : p.audioQueue with
      | nil => rfl
      | cons c rest =>
        by_cases hf : fails c = true
        · simp only [hf, if_true]
          rw [ih]
        · simp [hf]

theorem enqueued_pstep (fails : Nat → Bool) (p : PlayerState) (e : PEv) :
    (pstep fails p e).enqueued =
      p.enqueued ++ (match e with | PEv.enq c => [c] | PEv.ended => []) := by
  cases e with
  | enq c =>
    show (playAudioResponse fails p c).enqueued = _
    rw [playAudioResponse, processQueue, enqueued_processQueueFuel]
  | ended =>
    show (onEnded fails p).enqueued = p.enqueued ++ []
    rw [List.append_nil, onEnded]
    cases hc : p.currentAudio with
    | none => rfl
    | some c =>
      by_cases hp : p.isPlaying = true
      · simp only [hp, if_true]
        rw [processQueue, enqueued_processQueueFuel]
      · simp [hp]

theorem enqueued_prun (fails : Nat → Bool) (evs : List PEv) (p : PlayerState) :
    (prun fails p evs).enqueued = p.enqueued ++ enqueuedOf evs := by
  induction evs generalizing p with
  | nil => simp [prun, enqueuedOf]
  | cons e evs ih =>
    show (prun fails (pstep fails p e) evs).enqueued = _
    rw [ih, enqueued_pstep]
    cases e <;> simp [enqueuedOf]

/-- C3: for every sequence of enqueue and completion events on the playback
queue, under any oracle for which clips' play() rejects: the ghost log of the
run is accepted by runLog, meaning every playback start happened while no
clip was open — at most one clip plays at any time and no second playback
starts before the previous clip's completion (finish) or error (fail)
callback has fired, so an enqueue during playback never starts a concurrent
playback — and the clips that started, followed by the clips still pending,
are exactly the enqueued clips in arrival order: strict FIFO. -/
theorem playback_fifo_no_overlap (fails : Nat → Bool) (evs : List PEv) :
    (runLog (prun fails initPlayer evs).log none).isSome = true ∧
    startsOf (prun fails initPlayer evs).log ++ (prun fails initPlayer evs).audioQueue =
      enqueuedOf evs := by
  obtain ⟨h1, _, h3⟩ := PInv_prun fails evs initPlayer PInv_init
  constructor
  · rw [h1]
    rfl
  · rw [h3, enqueued_prun]
    rfl

end VoiceChat
